import Mathlib

/-!
Verification development for NanoPlot's orchestration core
(`nanoplot/NanoPlot.py`): data-driven plot selection (`make_plots`),
statistics orchestration (`make_stats`), barcode fan-out (the `--barcoded`
loop in `main`), report assembly (`make_report`) and the top-level
error boundary of `main`.

The pandas DataFrame is modelled as a record of parallel column lists, with
optional columns as `Option`; the external collaborators (nanoget ingestion,
nanoplot.filteroptions filtering, the nanoplotter rendering backend,
nanomath statistics and nanoplot.utils HTML helpers) are treated as opaque
function parameters or recorded call descriptors, exactly at the boundary
where `NanoPlot.py` delegates to them.  Rendering parameters that
`NanoPlot.py` merely forwards verbatim to the backend (color, figformat,
dpi, font scale, plot-kind counts, Pearson annotation, percentile display
bounds) are not recorded; the data arrays, axis names and output paths of
every backend call are.
-/

set_option autoImplicit false

universe u

/-- Which DataFrame column `settings["lengths_pointer"]` designates as the
canonical length column.  The filtering stage (`filter_and_transform_data`,
external to this file's source) sets it to the sequenced lengths, or to the
aligned lengths in alignment mode. -/
inductive LengthsPointer where
  | lengths
  | aligned_lengths
deriving DecidableEq

/-- The tabular dataset (`datadf` in NanoPlot.py).  Each field is one column;
rows are positional across the lists.  `lengths` is always present and
`length_filter` is present once the filtering stage has run (both are
required by the spec's data model); every other column is optional, and its
presence (`some`) models the Python membership test `"col" in datadf`. -/
structure Dataset where
  lengths : List Int
  length_filter : List Bool
  quals : Option (List Int) := none
  channelIDs : Option (List Int) := none
  start_time : Option (List Int) := none
  aligned_lengths : Option (List Int) := none
  mapQ : Option (List Int) := none
  percentIdentity : Option (List Int) := none
  aligned_quals : Option (List Int) := none
  barcode : Option (List String) := none
deriving DecidableEq

/-- Row filtering by a boolean mask column: `df[mask][col]` in pandas.
Positions where the mask is `true` are kept. -/
def maskFilter {α : Type u} (mask : List Bool) (col : List α) : List α :=
  (mask.zip col).filterMap (fun p => if p.1 then some p.2 else none)

/-- Row count, `len(datadf)`.  The `lengths` column is the one column
that is always present, so it carries the row count of the model. -/
def Dataset.len (d : Dataset) : Nat := d.lengths.length

/-- Column lookup through `settings["lengths_pointer"]`.  Looking up
`"aligned_lengths"` on a dataset that lacks that column is the KeyError
case, hence the `Option`. -/
def Dataset.pointerCol (d : Dataset) : LengthsPointer → Option (List Int)
  | .lengths => some d.lengths
  | .aligned_lengths => d.aligned_lengths

/-- Label selection `datadf[datadf["barcode"] == barc]` (line 83): every column
restricted to the rows carrying barcode `b`.  The mask comes from the
`barcode` column; in every reachable call site that column is present
(`main` reads it first), so the `getD []` default is never exercised from
the pipeline model. -/
def Dataset.selectBarcode (d : Dataset) (b : String) : Dataset :=
  let mask := (d.barcode.getD []).map (fun x => x == b)
  { lengths := maskFilter mask d.lengths
    length_filter := maskFilter mask d.length_filter
    quals := d.quals.map (maskFilter mask)
    channelIDs := d.channelIDs.map (maskFilter mask)
    start_time := d.start_time.map (maskFilter mask)
    aligned_lengths := d.aligned_lengths.map (maskFilter mask)
    mapQ := d.mapQ.map (maskFilter mask)
    percentIdentity := d.percentIdentity.map (maskFilter mask)
    aligned_quals := d.aligned_quals.map (maskFilter mask)
    barcode := d.barcode.map (maskFilter mask) }

/-- The mutable `settings` dict of NanoPlot.py, restricted to the fields the
orchestration core reads or writes.  Rendering-only fields that are merely
forwarded to the backend (color, format, dpi, font scale, plot-kind counts)
are abstracted away. -/
structure Settings where
  path : String
  title : Option String
  barcoded : Bool
  filtered : Bool
  statsfile : List String
  lengths_pointer : LengthsPointer
  N50 : Bool
  logBool : Bool
deriving DecidableEq

/-- One invocation of the nanoplotter rendering backend, recording the data
arrays, axis names and output path that `make_plots` passes.  The backend
itself (and its return value, a list of Plot descriptors) is external. -/
inductive PlotCall where
  /-- Call of `nanoplotter.length_plots` (lines 311-320): the filtered lengths, the
  name `"Read length"`, the output path and, when `settings["N50"]` is set,
  the unfiltered lengths column handed to `nanomath.get_N50` (the external
  N50 computation sorts it and reduces it to a number). -/
  | length_plots (array : List Int) (name : String) (path : String)
      (n50input : Option (List Int))
  /-- Call of `nanoplotter.scatter`: x column, y column, axis names, output path,
  and the `log` keyword when the call site passes it explicitly. -/
  | scatter (x : List Int) (y : List Int) (names : List String) (path : String)
      (log : Option Bool)
  /-- Call of `nanoplotter.spatial_heatmap` (lines 337-345): the unfiltered
  `channelIDs` column and the output path. -/
  | spatial_heatmap (array : List Int) (path : String)
  /-- Call of `nanoplotter.time_plots` (lines 347-357): the whole DataFrame, the
  output path and the log-length flag. -/
  | time_plots (df : Dataset) (path : String) (log_length : Bool)
deriving DecidableEq

/-- Step 1 of `make_plots` (lines 307-320): always emitted.  Read-length
distribution over the length-filtered `lengths` column; the N50 annotation
input is the unfiltered column, computed only when `settings["N50"]`. -/
def step_length (d : Dataset) (s : Settings) : List PlotCall :=
  let n50input := if s.N50 then some d.lengths else none
  [PlotCall.length_plots (maskFilter d.length_filter d.lengths) "Read length" s.path n50input]

/-- Step 2 of `make_plots` (lines 322-336): if `"quals" in datadf`, scatter
of the length-filtered pointer column against the length-filtered `quals`.
The pointer lookup is the one fallible column access. -/
def step_quals (d : Dataset) (s : Settings) : Option (List PlotCall) :=
  match d.quals with
  | none => some []
  | some quals =>
    (d.pointerCol s.lengths_pointer).map (fun xs =>
      [PlotCall.scatter (maskFilter d.length_filter xs) (maskFilter d.length_filter quals)
        ["Read lengths", "Average read quality"]
        (s.path ++ "LengthvsQualityScatterPlot") (some s.logBool)])

/-- Step 3 of `make_plots` (lines 337-346): if `"channelIDs" in datadf`,
spatial heatmap over the unfiltered `channelIDs` column. -/
def step_channel (d : Dataset) (s : Settings) : List PlotCall :=
  match d.channelIDs with
  | none => []
  | some ch => [PlotCall.spatial_heatmap ch (s.path ++ "ActivityMap_ReadsPerChannel")]

/-- Step 4 of `make_plots` (lines 347-358): if `"start_time" in datadf`,
time plots over the whole DataFrame. -/
def step_time (d : Dataset) (s : Settings) : List PlotCall :=
  match d.start_time with
  | none => []
  | some _ => [PlotCall.time_plots d s.path s.logBool]

/-- Step 5 of `make_plots` (lines 359-372): if `"aligned_lengths" in datadf
and "lengths" in datadf` (`lengths` is always present in the model), scatter
of length-filtered aligned lengths against length-filtered lengths. -/
def step_aligned (d : Dataset) (s : Settings) : List PlotCall :=
  match d.aligned_lengths with
  | none => []
  | some al =>
    [PlotCall.scatter (maskFilter d.length_filter al) (maskFilter d.length_filter d.lengths)
      ["Aligned read lengths", "Sequenced read length"]
      (s.path ++ "AlignedReadlengthvsSequencedReadLength") none]

/-- Step 6 of `make_plots` (lines 373-400): if both `mapQ` and `quals` are
present, two scatters: unfiltered mapQ against unfiltered quals, then the
length-filtered pointer column against length-filtered mapQ. -/
def step_mapq (d : Dataset) (s : Settings) : Option (List PlotCall) :=
  match d.mapQ, d.quals with
  | some mq, some quals =>
    (d.pointerCol s.lengths_pointer).map (fun xs =>
      [PlotCall.scatter mq quals
        ["Read mapping quality", "Average basecall quality"]
        (s.path ++ "MappingQualityvsAverageBaseQuality") none,
       PlotCall.scatter (maskFilter d.length_filter xs) (maskFilter d.length_filter mq)
        ["Read length", "Read mapping quality"]
        (s.path ++ "MappingQualityvsReadLength") (some s.logBool)])
  | _, _ => some []

/-- Step 7 of `make_plots` (lines 401-434): if `percentIdentity` is present,
first (only if `aligned_quals` is also present) the unfiltered identity
against aligned base quality, then always the length-filtered pointer column
against length-filtered identity.  The 1st-percentile display bound
(`np.percentile`, line 402) is a forwarded rendering parameter and is not
recorded. -/
def step_pid (d : Dataset) (s : Settings) : Option (List PlotCall) :=
  match d.percentIdentity with
  | none => some []
  | some pid =>
    let first := match d.aligned_quals with
      | none => []
      | some aq =>
        [PlotCall.scatter pid aq
          ["Percent identity", "Average Base Quality"]
          (s.path ++ "PercentIdentityvsAverageBaseQuality") none]
    (d.pointerCol s.lengths_pointer).map (fun xs =>
      first ++ [PlotCall.scatter (maskFilter d.length_filter xs) (maskFilter d.length_filter pid)
        ["Aligned read length", "Percent identity"]
        (s.path ++ "PercentIdentityvsAlignedReadLength") (some s.logBool)])

/-- Model of `make_plots(datadf, settings)` (lines 297-435): the ordered backend call
sequence.  `none` models an uncaught exception (the only exception source in
the model is the `lengths_pointer` column lookup). -/
def make_plots (d : Dataset) (s : Settings) : Option (List PlotCall) := do
  let p2 ← step_quals d s
  let p6 ← step_mapq d s
  let p7 ← step_pid d s
  return step_length d s ++ p2 ++ step_channel d s ++ step_time d s ++
    step_aligned d s ++ p6 ++ p7

/-- The nine plot families of the spec's section 4.1, in their fixed order. -/
inductive PlotFamily where
  | readLength
  | lengthVsQual
  | activityMap
  | timePlots
  | alignedVsSequenced
  | mapQvsBaseQ
  | lengthVsMapQ
  | pidVsBaseQ
  | alignedLengthVsPid
deriving DecidableEq

/-- Classify a backend call by the axis names it passes (each `make_plots`
call site uses a distinct, fixed names list). -/
def classify : PlotCall → Option PlotFamily
  | .length_plots _ _ _ _ => some .readLength
  | .spatial_heatmap _ _ => some .activityMap
  | .time_plots _ _ _ => some .timePlots
  | .scatter _ _ ["Read lengths", "Average read quality"] _ _ => some .lengthVsQual
  | .scatter _ _ ["Aligned read lengths", "Sequenced read length"] _ _ => some .alignedVsSequenced
  | .scatter _ _ ["Read mapping quality", "Average basecall quality"] _ _ => some .mapQvsBaseQ
  | .scatter _ _ ["Read length", "Read mapping quality"] _ _ => some .lengthVsMapQ
  | .scatter _ _ ["Percent identity", "Average Base Quality"] _ _ => some .pidVsBaseQ
  | .scatter _ _ ["Aligned read length", "Percent identity"] _ _ => some .alignedLengthVsPid
  | .scatter _ _ _ _ _ => none

/-- The families of a backend call list, in order. -/
def familiesOf (l : List PlotCall) : List PlotFamily := l.filterMap classify

/-- The fixed family order of spec section 4.1. -/
def allFamilies : List PlotFamily :=
  [.readLength, .lengthVsQual, .activityMap, .timePlots, .alignedVsSequenced,
   .mapQvsBaseQ, .lengthVsMapQ, .pidVsBaseQ, .alignedLengthVsPid]

/-- The column-presence condition under which `make_plots` activates each
family (the spec's required columns per family). -/
def requiresCols : PlotFamily → Dataset → Bool
  | .readLength, _ => true
  | .lengthVsQual, d => d.quals.isSome
  | .activityMap, d => d.channelIDs.isSome
  | .timePlots, d => d.start_time.isSome
  | .alignedVsSequenced, d => d.aligned_lengths.isSome
  | .mapQvsBaseQ, d => d.mapQ.isSome && d.quals.isSome
  | .lengthVsMapQ, d => d.mapQ.isSome && d.quals.isSome
  | .pidVsBaseQ, d => d.percentIdentity.isSome && d.aligned_quals.isSome
  | .alignedLengthVsPid, d => d.percentIdentity.isSome

/-! ## Statistics orchestration, barcode fan-out, report assembly, driver -/

/-- First-occurrence deduplication: `pandas.Series.unique()` keeps the order
in which distinct values first appear. -/
def uniqueFirstAux (seen : List String) : List String → List String
  | [] => []
  | a :: l =>
    if a ∈ seen then uniqueFirstAux seen l
    else a :: uniqueFirstAux (a :: seen) l

/-- Distinct values in first-occurrence order, `list(series.unique())`. -/
def uniqueFirst (l : List String) : List String := uniqueFirstAux [] l

/-- One `nanomath.write_stats` invocation, recording the datasets, the
optional per-dataset labels and the output file (the statistics math itself
is external). -/
structure StatsWrite where
  datadfs : List Dataset
  names : Option (List String)
  outputfile : String
deriving DecidableEq

/-- Model of `make_stats(datadf, settings, suffix)` (lines 281-294): always one
aggregate `write_stats` to `path + "NanoStats" + suffix + ".txt"`; when
`settings["barcoded"]`, a second `write_stats` over every distinct barcode
label (no minimum-size exclusion) to `path + "NanoStats_barcoded.txt"`,
and the local `statsfile` variable is rebound to that barcoded path before
being returned.  Reading the absent `barcode` column is the KeyError case. -/
def make_stats (datadf : Dataset) (s : Settings) (suffix : String) :
    Option (List StatsWrite × String) :=
  let statsfile := s.path ++ "NanoStats" ++ suffix ++ ".txt"
  let w1 : StatsWrite := ⟨[datadf], none, statsfile⟩
  if s.barcoded then
    match datadf.barcode with
    | none => none
    | some bc =>
      let barcodes := uniqueFirst bc
      let statsfile2 := s.path ++ "NanoStats_barcoded.txt"
      some ([w1, ⟨barcodes.map (fun b => datadf.selectBarcode b), some barcodes, statsfile2⟩],
            statsfile2)
  else some ([w1], statsfile)

/-- Observable output of the driver: writes to the standard streams and to
the log (`sys.stderr.write`, `print`, `logging.info`, `logging.error`). -/
inductive Effect where
  | stdout (msg : String)
  | stderrOut (msg : String)
  | logInfo (msg : String)
  | logError (msg : String)
deriving DecidableEq

/-- The command-line arguments the orchestration core reads (`args.outdir`,
`args.prefix` — named `pfx` here —, `args.barcoded`, `args.N50`,
`args.title`). -/
structure Args where
  outdir : String
  pfx : String
  barcoded : Bool
  n50 : Bool
  title : Option String
deriving DecidableEq

/-- Path join `os.path.join(outdir, name)`, for the relative names the driver builds. -/
def pathJoin (outdir name : String) : String := outdir ++ "/" ++ name

/-- The per-label output path of the barcode loop (line 82):
`path.join(args.outdir, args.prefix + barc + "_")`. -/
def labelPath (args : Args) (barc : String) : String :=
  pathJoin args.outdir (args.pfx ++ barc ++ "_")

/-- The settings a retained label's `make_plots` call observes: the shared
record with `path` rewritten to the label path and `title` set to the label
(lines 82 and 85). -/
def labelSettings (args : Args) (s : Settings) (barc : String) : Settings :=
  { s with path := labelPath args barc, title := some barc }

/-- The `for barc in barcodes` loop of `main` (lines 80-91), threading the
mutated `settings` record.  Per label: log "Processing", rewrite
`settings["path"]`, select the label's rows; if more than 5 rows, set
`settings["title"]` and extend the plot list via `make_plots`, else write
the skip notice to stderr and the log.  `none` models an exception escaping
from `make_plots`. -/
def barcodeLoop (args : Args) (datadf : Dataset) :
    List String → Settings → Option (Settings × List PlotCall × List Effect)
  | [], s => some (s, [], [])
  | barc :: rest, s =>
    let s1 : Settings := { s with path := labelPath args barc }
    let dfbarc := datadf.selectBarcode barc
    if 5 < dfbarc.len then
      match make_plots dfbarc { s1 with title := some barc } with
      | none => none
      | some ps =>
        match barcodeLoop args datadf rest { s1 with title := some barc } with
        | none => none
        | some (s2, ps2, effs) =>
          some (s2, ps ++ ps2, Effect.logInfo ("Processing " ++ barc) :: effs)
    else
      match barcodeLoop args datadf rest s1 with
      | none => none
      | some (s2, ps2, effs) =>
        some (s2, ps2,
          Effect.logInfo ("Processing " ++ barc) ::
          Effect.stderrOut ("Found barcode " ++ barc ++ " less than 5x, ignoring...\n") ::
          Effect.logInfo ("Found barcode " ++ barc ++ " less than 5 times, ignoring") :: effs)

/-- A plot descriptor returned by the rendering backend: a title plus an
artifact (`p.encode()` is abstracted as a function parameter wherever the
report consumes it). -/
structure Plot where
  title : String
deriving DecidableEq

/-- Anchor sanitization `title.replace(' ', '_')` (lines 460 and 477): every space becomes an
underscore. -/
def sanitize (t : String) : String :=
  String.mk (t.data.map (fun c => if c = ' ' then '_' else c))

/-- One table-of-contents line per plot (lines 459-460). -/
def tocEntry (p : Plot) : String :=
  "<p style=\"margin-left:20px\"><a href=\"#" ++ sanitize p.title ++ "\">" ++
    p.title ++ "</a></p>"

/-- One plots-panel section per plot (lines 476-479): the anchored heading
with the embedded artifact, then the spacer line. -/
def plotSection (encode : Plot → String) (p : Plot) : List String :=
  ["\n<h3 id=\"" ++ sanitize p.title ++ "\">" ++ p.title ++ "</h3>\n" ++ encode p,
   "\n<br>\n<br>\n<br>\n<br>"]

/-- The statistics panel (lines 464-472): headings plus
`utils.stats2html(settings["statsfile"][i])` (rendered table abstracted as
the `stats2html` parameter).  The list indexings are the IndexError cases. -/
def statsSections (stats2html : String → String) (s : Settings) : Option (List String) :=
  if s.filtered then do
    let f0 ← s.statsfile.get? 0
    let f1 ← s.statsfile.get? 1
    some ["<h2 id=\"stats0\">Summary statistics prior to filtering</h2>", stats2html f0,
          "<h2 id=\"stats1\">Summary statistics after filtering</h2>", stats2html f1]
  else do
    let f0 ← s.statsfile.get? 0
    some ["<h2 id=\"stats0\">Summary statistics</h2>", stats2html f0]

/-- The `html_content` list built by `make_report` (lines 446-479), in the
exact append order of the source: body open, table-of-contents panel (one or
two statistics anchors keyed on `settings["filtered"]`, the Plots anchor,
one line per plot title in plot order), panel close, main panel open,
statistics sections, plots heading, and one section per plot in order. -/
def report_html_content (stats2html : String → String) (encode : Plot → String)
    (plots : List Plot) (s : Settings) : Option (List String) := do
  let stats ← statsSections stats2html s
  some (["<body>", "<div class=\"panel panelC\">"] ++
        (if s.filtered then
          ["<p><strong><a href=\"#stats0\">Summary Statistics prior to filtering</a></strong></p>",
           "<p><strong><a href=\"#stats1\">Summary Statistics after filtering</a></strong></p>"]
         else
          ["<p><strong><a href=\"#stats0\">Summary Statistics</a></strong></p>"]) ++
        ["<p><strong><a href=\"#plots\">Plots</a></strong></p>"] ++
        plots.map tocEntry ++
        ["</div>", "<div class=\"panel panelM\"> <h1>NanoPlot report</h1>"] ++
        stats ++
        ["<h2 id=\"plots\">Plots</h2>"] ++
        plots.flatMap (plotSection encode))

/-- Model of `make_report(plots, settings)` (lines 438-485): the written file path
`settings["path"] + "NanoPlot-report.html"` plus the content lines (the
final string is `utils.html_head` plus the newline join of the lines; the
head constant and the join are external presentation). -/
def make_report (stats2html : String → String) (encode : Plot → String)
    (plots : List Plot) (s : Settings) : Option (String × List String) :=
  (report_html_content stats2html encode plots s).map
    (fun c => (s.path ++ "NanoPlot-report.html", c))

/-- The outcome of the external filtering stage
(`filter_and_transform_data`, from nanoplot.filteroptions, outside this
file's source).  Modelled from the spec: it returns a transformed Dataset
plus a flag saying whether anything was actually filtered, and fixes the
settings fields it owns (the canonical length column and the log-scale
flag). -/
structure FilterOutcome where
  df : Dataset
  filtered : Bool
  lengths_pointer : LengthsPointer
  logBool : Bool
deriving DecidableEq

/-- The settings record as `main` builds it before the statistics stage
(lines 42-43): startup output path `path.join(args.outdir, args.prefix)`;
`filtered`, `lengths_pointer` and `logBool` are placeholders until the
filtering stage sets them. -/
def initSettings (args : Args) : Settings :=
  { path := pathJoin args.outdir args.pfx
    title := args.title
    barcoded := args.barcoded
    filtered := false
    statsfile := []
    lengths_pointer := .lengths
    N50 := args.n50
    logBool := false }

/-- Lines 72-75 of `main`: pre-filter statistics, the filtering stage, and
the post-filter statistics guarded by `settings["filtered"]`.  Returns the
accumulated `write_stats` calls, the filtered dataset and the settings
(with the grown `statsfile` list). -/
def statsPhase (args : Args) (datadf : Dataset) (filt : Dataset → FilterOutcome) :
    Option (List StatsWrite × Dataset × Settings) := do
  let s0 := initSettings args
  let (w1, p1) ← make_stats datadf s0 ""
  let s1 : Settings := { s0 with statsfile := [p1] }
  let fo := filt datadf
  let s2 : Settings := { s1 with
    filtered := fo.filtered, lengths_pointer := fo.lengths_pointer, logBool := fo.logBool }
  if fo.filtered then do
    let (w2, p2) ← make_stats fo.df s2 "_post_filtering"
    some (w1 ++ w2, fo.df, { s2 with statsfile := s2.statsfile ++ [p2] })
  else
    some (w1, fo.df, s2)

/-- Lines 77-93 of `main`: barcode fan-out over the distinct labels of the
`barcode` column when `--barcoded`, else a single `make_plots` call. -/
def plotPhase (args : Args) (df1 : Dataset) (s3 : Settings) :
    Option (Settings × List PlotCall × List Effect) :=
  if args.barcoded then do
    let bc ← df1.barcode
    barcodeLoop args df1 (uniqueFirst bc) s3
  else do
    let ps ← make_plots df1 s3
    some (s3, ps, [])

/-- Everything one run of the driver's happy path produces. -/
structure RunResult where
  statsWrites : List StatsWrite
  settings : Settings
  plotCalls : List PlotCall
  plots : List Plot
  effects : List Effect
  reportPath : String
  reportContent : List String
deriving DecidableEq

/-- The body of `main` after ingestion (lines 72-94): statistics and
filtering, plot fan-out, then `make_report(plots, settings)` with whatever
`settings` holds at that point.  Ingestion, the optional pickle/TSV caching
(lines 55-70) and argument validation happen before this and are external;
`render` models what the nanoplotter backend returns for each recorded
call. -/
def pipeline (stats2html : String → String) (encode : Plot → String)
    (render : PlotCall → List Plot) (args : Args) (datadf : Dataset)
    (filt : Dataset → FilterOutcome) : Option RunResult := do
  let (ws, df1, s3) ← statsPhase args datadf filt
  let (s4, calls, effs) ← plotPhase args df1 s3
  let plots := calls.flatMap render
  let (rp, content) ← make_report stats2html encode plots s4
  some ⟨ws, s4, calls, plots, effs, rp, content⟩

/-- The five fixed support-message lines printed by the `except` clause of
`main` (lines 98-102), verbatim arguments of the Python `print` calls
(which write to the standard output stream). -/
def crashLines : List String :=
  ["\n\n\nIf you read this then NanoPlot has crashed :-(",
   "Please try updating NanoPlot and see if that helps...\n",
   "If not, please report this issue at https://github.com/wdecoster/NanoPlot/issues",
   "If you could include the log file that would be really helpful.",
   "Thanks!\n\n\n"]

/-- The `try/except` boundary of `main` (lines 38 and 96-103): on success,
no extra output; on any exception, `logging.error(e, exc_info=True)`, the
five support lines via `print` (standard output), and the bare `raise`
re-raising the same exception. -/
def driver_catch {α : Type u} (body : Except String α) : Except String α × List Effect :=
  match body with
  | .ok a => (.ok a, [])
  | .error e => (.error e, Effect.logError e :: crashLines.map Effect.stdout)



/-! ## Lemmas about make_plots -/

theorem familiesOf_append (l1 l2 : List PlotCall) :
    familiesOf (l1 ++ l2) = familiesOf l1 ++ familiesOf l2 :=
  List.filterMap_append l1 l2 classify

theorem make_plots_parts (d : Dataset) (s : Settings) (l : List PlotCall)
    (h : make_plots d s = some l) :
    ∃ p2 p6 p7, step_quals d s = some p2 ∧ step_mapq d s = some p6 ∧
      step_pid d s = some p7 ∧
      l = step_length d s ++ p2 ++ step_channel d s ++ step_time d s ++
        step_aligned d s ++ p6 ++ p7 := by
  simp only [make_plots, bind, Option.bind_eq_some, pure, Option.some.injEq] at h
  obtain ⟨p2, h2, p6, h6, p7, h7, hl⟩ := h
  exact ⟨p2, p6, p7, h2, h6, h7, hl.symm⟩

theorem familiesOf_step_length (d : Dataset) (s : Settings) :
    familiesOf (step_length d s) = [PlotFamily.readLength] := rfl

theorem familiesOf_step_quals (d : Dataset) (s : Settings) (p : List PlotCall)
    (h : step_quals d s = some p) :
    familiesOf p = if d.quals.isSome then [PlotFamily.lengthVsQual] else [] := by
  cases hq : d.quals with
  | none =>
    simp only [step_quals, hq] at h
    injection h with h
    subst h
    simp [familiesOf, hq]
  | some q =>
    simp only [step_quals, hq] at h
    cases hx : d.pointerCol s.lengths_pointer with
    | none => rw [hx] at h; simp at h
    | some xs =>
      rw [hx] at h
      simp only [Option.map_some', Option.some.injEq] at h
      subst h
      rfl

theorem familiesOf_step_channel (d : Dataset) (s : Settings) :
    familiesOf (step_channel d s) =
      if d.channelIDs.isSome then [PlotFamily.activityMap] else [] := by
  cases hc : d.channelIDs <;> simp [step_channel, hc, familiesOf, classify]

theorem familiesOf_step_time (d : Dataset) (s : Settings) :
    familiesOf (step_time d s) =
      if d.start_time.isSome then [PlotFamily.timePlots] else [] := by
  cases ht : d.start_time <;> simp [step_time, ht, familiesOf, classify]

theorem familiesOf_step_aligned (d : Dataset) (s : Settings) :
    familiesOf (step_aligned d s) =
      if d.aligned_lengths.isSome then [PlotFamily.alignedVsSequenced] else [] := by
  cases ha : d.aligned_lengths with
  | none => simp [step_aligned, ha, familiesOf]
  | some al => simp only [step_aligned, ha, Option.isSome_some, if_true]; rfl

theorem familiesOf_step_mapq (d : Dataset) (s : Settings) (p : List PlotCall)
    (h : step_mapq d s = some p) :
    familiesOf p =
      if d.mapQ.isSome && d.quals.isSome then
        [PlotFamily.mapQvsBaseQ, PlotFamily.lengthVsMapQ] else [] := by
  cases hm : d.mapQ with
  | none =>
    simp only [step_mapq, hm] at h
    injection h with h
    subst h
    simp [familiesOf, hm]
  | some mq =>
    cases hq : d.quals with
    | none =>
      simp only [step_mapq, hm, hq] at h
      injection h with h
      subst h
      simp [familiesOf, hq]
    | some q =>
      simp only [step_mapq, hm, hq] at h
      cases hx : d.pointerCol s.lengths_pointer with
      | none => rw [hx] at h; simp at h
      | some xs =>
        rw [hx] at h
        simp only [Option.map_some', Option.some.injEq] at h
        subst h
        simp [hm, hq]
        rfl

theorem familiesOf_step_pid (d : Dataset) (s : Settings) (p : List PlotCall)
    (h : step_pid d s = some p) :
    familiesOf p =
      (if d.percentIdentity.isSome && d.aligned_quals.isSome then
        [PlotFamily.pidVsBaseQ] else []) ++
      (if d.percentIdentity.isSome then [PlotFamily.alignedLengthVsPid] else []) := by
  cases hp : d.percentIdentity with
  | none =>
    simp only [step_pid, hp] at h
    injection h with h
    subst h
    simp [familiesOf, hp]
  | some pid =>
    simp only [step_pid, hp] at h
    cases hx : d.pointerCol s.lengths_pointer with
    | none => rw [hx] at h; simp at h
    | some xs =>
      rw [hx] at h
      simp only [Option.map_some', Option.some.injEq] at h
      subst h
      cases haq : d.aligned_quals with
      | none => simp [haq]; rfl
      | some aq => simp [haq]; rfl

theorem filter_allFamilies (d : Dataset) :
    allFamilies.filter (fun f => requiresCols f d) =
      [PlotFamily.readLength] ++
      (if d.quals.isSome then [PlotFamily.lengthVsQual] else []) ++
      (if d.channelIDs.isSome then [PlotFamily.activityMap] else []) ++
      (if d.start_time.isSome then [PlotFamily.timePlots] else []) ++
      (if d.aligned_lengths.isSome then [PlotFamily.alignedVsSequenced] else []) ++
      (if d.mapQ.isSome && d.quals.isSome then
        [PlotFamily.mapQvsBaseQ, PlotFamily.lengthVsMapQ] else []) ++
      ((if d.percentIdentity.isSome && d.aligned_quals.isSome then
        [PlotFamily.pidVsBaseQ] else []) ++
       (if d.percentIdentity.isSome then [PlotFamily.alignedLengthVsPid] else [])) := by
  cases hq : d.quals <;> cases hc : d.channelIDs <;> cases ht : d.start_time <;>
    cases ha : d.aligned_lengths <;> cases hm : d.mapQ <;> cases hp : d.percentIdentity <;>
    cases haq : d.aligned_quals <;>
    simp [allFamilies, requiresCols, hq, hc, ht, ha, hm, hp, haq, List.filter]

theorem make_plots_families (d : Dataset) (s : Settings) (l : List PlotCall)
    (h : make_plots d s = some l) :
    familiesOf l = allFamilies.filter (fun f => requiresCols f d) := by
  obtain ⟨p2, p6, p7, h2, h6, h7, rfl⟩ := make_plots_parts d s l h
  rw [filter_allFamilies]
  simp only [familiesOf_append]
  rw [familiesOf_step_length, familiesOf_step_quals d s p2 h2,
    familiesOf_step_channel, familiesOf_step_time, familiesOf_step_aligned,
    familiesOf_step_mapq d s p6 h6, familiesOf_step_pid d s p7 h7]

theorem pointerCol_isSome (d : Dataset) (lp : LengthsPointer)
    (hp : lp = LengthsPointer.aligned_lengths → d.aligned_lengths.isSome = true) :
    (d.pointerCol lp).isSome = true := by
  cases lp with
  | lengths => rfl
  | aligned_lengths => exact hp rfl

theorem make_plots_isSome (d : Dataset) (s : Settings)
    (hp : s.lengths_pointer = LengthsPointer.aligned_lengths →
      d.aligned_lengths.isSome = true) :
    (make_plots d s).isSome = true := by
  obtain ⟨xs, hxs⟩ := Option.isSome_iff_exists.mp (pointerCol_isSome d s.lengths_pointer hp)
  have h2 : (step_quals d s).isSome = true := by
    cases hq : d.quals <;> simp [step_quals, hq, hxs]
  have h6 : (step_mapq d s).isSome = true := by
    cases hm : d.mapQ <;> cases hq : d.quals <;> simp [step_mapq, hm, hq, hxs]
  have h7 : (step_pid d s).isSome = true := by
    cases hpi : d.percentIdentity <;> simp [step_pid, hpi, hxs]
  obtain ⟨p2, e2⟩ := Option.isSome_iff_exists.mp h2
  obtain ⟨p6, e6⟩ := Option.isSome_iff_exists.mp h6
  obtain ⟨p7, e7⟩ := Option.isSome_iff_exists.mp h7
  simp [make_plots, e2, e6, e7]

/-- Concrete dataset with `percentIdentity` present and `aligned_quals`
absent, used by witnesses. -/
def dPid : Dataset :=
  { lengths := [100, 200], length_filter := [true, true],
    percentIdentity := some [95, 98] }

/-- Concrete non-barcoded settings record used by witnesses. -/
def sPlain : Settings :=
  { path := "out/p", title := none, barcoded := false, filtered := false,
    statsfile := [], lengths_pointer := .lengths, N50 := false, logBool := false }

/-- C1: for every Dataset and Settings (with the filtering stage's guarantee
that the designated canonical length column exists), `make_plots` succeeds —
no missing optional column raises — and emits exactly the plot families
whose required columns are present; in particular, when `percentIdentity`
is present and `aligned_quals` absent, the aligned-length versus
percent-identity scatter of step 7 is emitted and the base-quality variant
is not. -/
theorem make_plots_family_selection (d : Dataset) (s : Settings)
    (hp : s.lengths_pointer = LengthsPointer.aligned_lengths →
      d.aligned_lengths.isSome = true) :
    (make_plots d s).isSome = true ∧
    ∀ l, make_plots d s = some l →
      familiesOf l = allFamilies.filter (fun f => requiresCols f d) ∧
      (d.percentIdentity.isSome = true → d.aligned_quals = none →
        PlotFamily.alignedLengthVsPid ∈ familiesOf l ∧
        PlotFamily.pidVsBaseQ ∉ familiesOf l) := by
  refine ⟨make_plots_isSome d s hp, fun l hl =>
    ⟨make_plots_families d s l hl, fun hpid haq => ?_⟩⟩
  rw [make_plots_families d s l hl]
  constructor
  · simp [List.mem_filter, allFamilies, requiresCols, hpid]
  · simp [List.mem_filter, requiresCols, haq]

theorem make_plots_family_selection_witness :
    (make_plots dPid sPlain).isSome = true ∧
    familiesOf ((make_plots dPid sPlain).getD []) =
      allFamilies.filter (fun f => requiresCols f dPid) ∧
    PlotFamily.alignedLengthVsPid ∈ familiesOf ((make_plots dPid sPlain).getD []) ∧
    PlotFamily.pidVsBaseQ ∉ familiesOf ((make_plots dPid sPlain).getD []) := by
  have h := make_plots_family_selection dPid sPlain (by decide)
  have h2 := h.2 ((make_plots dPid sPlain).getD []) (by decide)
  exact ⟨h.1, h2.1, (h2.2 (by decide) (by decide)).1, (h2.2 (by decide) (by decide)).2⟩

/-- C8: `make_plots` is deterministic — two runs on the identical Dataset
and Settings give the identical backend-call list, hence descriptor lists
with identical titles in identical order — and the emitted families always
follow the fixed family order of spec section 4.1 (they form a sublist of
`allFamilies`). -/
theorem make_plots_deterministic_order (d : Dataset) (s : Settings) :
    make_plots d s = make_plots d s ∧
    ∀ l, make_plots d s = some l → List.Sublist (familiesOf l) allFamilies := by
  refine ⟨rfl, fun l hl => ?_⟩
  rw [make_plots_families d s l hl]
  exact List.filter_sublist _

theorem make_plots_deterministic_order_witness :
    make_plots dPid sPlain = make_plots dPid sPlain ∧
    List.Sublist (familiesOf ((make_plots dPid sPlain).getD [])) allFamilies :=
  ⟨(make_plots_deterministic_order dPid sPlain).1,
   (make_plots_deterministic_order dPid sPlain).2 _ (by decide)⟩

/-- The length-filter discipline of one backend call: length-dependent plot
data is drawn from `datadf[datadf["length_filter"]]`, while the spatial
heatmap reads the whole unfiltered `channelIDs` column (the unfiltered mapQ
versus base-quality and identity versus base-quality scatters and the time
plots are not length-dependent and are unconstrained). -/
def lengthFilterOk (d : Dataset) (s : Settings) : PlotCall → Prop
  | .length_plots arr _ _ _ => arr = maskFilter d.length_filter d.lengths
  | .spatial_heatmap arr _ => d.channelIDs = some arr
  | .time_plots _ _ _ => True
  | .scatter x y names _ _ =>
    (names = ["Read lengths", "Average read quality"] →
      (∃ xs, d.pointerCol s.lengths_pointer = some xs ∧
        x = maskFilter d.length_filter xs) ∧
      (∃ q, d.quals = some q ∧ y = maskFilter d.length_filter q)) ∧
    (names = ["Aligned read lengths", "Sequenced read length"] →
      (∃ al, d.aligned_lengths = some al ∧ x = maskFilter d.length_filter al) ∧
      y = maskFilter d.length_filter d.lengths) ∧
    (names = ["Read length", "Read mapping quality"] →
      (∃ xs, d.pointerCol s.lengths_pointer = some xs ∧
        x = maskFilter d.length_filter xs) ∧
      (∃ mq, d.mapQ = some mq ∧ y = maskFilter d.length_filter mq)) ∧
    (names = ["Aligned read length", "Percent identity"] →
      (∃ xs, d.pointerCol s.lengths_pointer = some xs ∧
        x = maskFilter d.length_filter xs) ∧
      (∃ pid, d.percentIdentity = some pid ∧ y = maskFilter d.length_filter pid))

theorem lengthFilterOk_step_length (d : Dataset) (s : Settings) :
    ∀ pc ∈ step_length d s, lengthFilterOk d s pc := by
  intro pc hpc
  simp only [step_length, List.mem_singleton] at hpc
  subst hpc
  rfl

theorem lengthFilterOk_step_quals (d : Dataset) (s : Settings) (p : List PlotCall)
    (h : step_quals d s = some p) : ∀ pc ∈ p, lengthFilterOk d s pc := by
  cases hq : d.quals with
  | none =>
    simp only [step_quals, hq] at h
    injection h with h
    subst h
    intro pc hpc
    simp at hpc
  | some q =>
    simp only [step_quals, hq] at h
    cases hx : d.pointerCol s.lengths_pointer with
    | none => rw [hx] at h; simp at h
    | some xs =>
      rw [hx] at h
      simp only [Option.map_some', Option.some.injEq] at h
      subst h
      intro pc hpc
      simp only [List.mem_singleton] at hpc
      subst hpc
      refine ⟨fun _ => ⟨⟨xs, hx, rfl⟩, ⟨q, hq, rfl⟩⟩, ?_, ?_, ?_⟩ <;>
        exact fun hn => absurd hn (by decide)

theorem lengthFilterOk_step_channel (d : Dataset) (s : Settings) :
    ∀ pc ∈ step_channel d s, lengthFilterOk d s pc := by
  intro pc hpc
  cases hc : d.channelIDs with
  | none => simp [step_channel, hc] at hpc
  | some ch =>
    simp only [step_channel, hc, List.mem_singleton] at hpc
    subst hpc
    exact hc

theorem lengthFilterOk_step_time (d : Dataset) (s : Settings) :
    ∀ pc ∈ step_time d s, lengthFilterOk d s pc := by
  intro pc hpc
  cases ht : d.start_time with
  | none => simp [step_time, ht] at hpc
  | some st =>
    simp only [step_time, ht, List.mem_singleton] at hpc
    subst hpc
    trivial

theorem lengthFilterOk_step_aligned (d : Dataset) (s : Settings) :
    ∀ pc ∈ step_aligned d s, lengthFilterOk d s pc := by
  intro pc hpc
  cases ha : d.aligned_lengths with
  | none => simp [step_aligned, ha] at hpc
  | some al =>
    simp only [step_aligned, ha, List.mem_singleton] at hpc
    subst hpc
    refine ⟨?_, fun _ => ⟨⟨al, ha, rfl⟩, rfl⟩, ?_, ?_⟩ <;>
      exact fun hn => absurd hn (by decide)

theorem lengthFilterOk_step_mapq (d : Dataset) (s : Settings) (p : List PlotCall)
    (h : step_mapq d s = some p) : ∀ pc ∈ p, lengthFilterOk d s pc := by
  cases hm : d.mapQ with
  | none =>
    simp only [step_mapq, hm] at h
    injection h with h
    subst h
    intro pc hpc
    simp at hpc
  | some mq =>
    cases hq : d.quals with
    | none =>
      simp only [step_mapq, hm, hq] at h
      injection h with h
      subst h
      intro pc hpc
      simp at hpc
    | some q =>
      simp only [step_mapq, hm, hq] at h
      cases hx : d.pointerCol s.lengths_pointer with
      | none => rw [hx] at h; simp at h
      | some xs =>
        rw [hx] at h
        simp only [Option.map_some', Option.some.injEq] at h
        subst h
        intro pc hpc
        simp only [List.mem_cons, List.mem_singleton, List.not_mem_nil, or_false] at hpc
        rcases hpc with hpc | hpc <;> subst hpc
        · refine ⟨?_, ?_, ?_, ?_⟩ <;> exact fun hn => absurd hn (by decide)
        · refine ⟨?_, ?_, fun _ => ⟨⟨xs, hx, rfl⟩, ⟨mq, hm, rfl⟩⟩, ?_⟩ <;>
            exact fun hn => absurd hn (by decide)

theorem lengthFilterOk_step_pid (d : Dataset) (s : Settings) (p : List PlotCall)
    (h : step_pid d s = some p) : ∀ pc ∈ p, lengthFilterOk d s pc := by
  cases hpi : d.percentIdentity with
  | none =>
    simp only [step_pid, hpi] at h
    injection h with h
    subst h
    intro pc hpc
    simp at hpc
  | some pid =>
    simp only [step_pid, hpi] at h
    cases hx : d.pointerCol s.lengths_pointer with
    | none => rw [hx] at h; simp at h
    | some xs =>
      rw [hx] at h
      simp only [Option.map_some', Option.some.injEq] at h
      subst h
      intro pc hpc
      rw [List.mem_append] at hpc
      rcases hpc with hpc | hpc
      · cases haq : d.aligned_quals with
        | none => rw [haq] at hpc; simp at hpc
        | some aq =>
          rw [haq] at hpc
          simp only [List.mem_singleton] at hpc
          subst hpc
          refine ⟨?_, ?_, ?_, ?_⟩ <;> exact fun hn => absurd hn (by decide)
      · simp only [List.mem_singleton] at hpc
        subst hpc
        refine ⟨?_, ?_, ?_, fun _ => ⟨⟨xs, hx, rfl⟩, ⟨pid, hpi, rfl⟩⟩⟩ <;>
          exact fun hn => absurd hn (by decide)

/-- C9: every length-dependent plot emitted by `make_plots` (read-length
distribution, length versus quality, aligned versus sequenced length, read
length versus mapQ, aligned length versus percent identity) draws its data
from the rows where `length_filter` is true, while the spatial channel
heatmap, when emitted, is computed over the unfiltered `channelIDs` column
of the whole dataset. -/
theorem length_filter_restriction (d : Dataset) (s : Settings) (l : List PlotCall)
    (h : make_plots d s = some l) : ∀ pc ∈ l, lengthFilterOk d s pc := by
  obtain ⟨p2, p6, p7, h2, h6, h7, rfl⟩ := make_plots_parts d s l h
  intro pc hpc
  simp only [List.mem_append] at hpc
  rcases hpc with ((((((hpc | hpc) | hpc) | hpc) | hpc) | hpc) | hpc)
  · exact lengthFilterOk_step_length d s pc hpc
  · exact lengthFilterOk_step_quals d s p2 h2 pc hpc
  · exact lengthFilterOk_step_channel d s pc hpc
  · exact lengthFilterOk_step_time d s pc hpc
  · exact lengthFilterOk_step_aligned d s pc hpc
  · exact lengthFilterOk_step_mapq d s p6 h6 pc hpc
  · exact lengthFilterOk_step_pid d s p7 h7 pc hpc

theorem length_filter_restriction_witness :
    lengthFilterOk dPid sPlain
      (PlotCall.length_plots [100, 200] "Read length" "out/p" none) :=
  length_filter_restriction dPid sPlain ((make_plots dPid sPlain).getD [])
    (by decide) _ (by decide)

/-! ## Counting lemmas for the barcode partition -/

theorem maskFilter_cons {α : Type u} (m : Bool) (ms : List Bool) (c : α) (cs : List α) :
    maskFilter (m :: ms) (c :: cs) =
      if m then c :: maskFilter ms cs else maskFilter ms cs := by
  cases m <;> simp [maskFilter]

theorem maskFilter_beq_length {α : Type u} (b : String) :
    ∀ (bc : List String) (col : List α), bc.length = col.length →
      (maskFilter (bc.map (fun x => x == b)) col).length = bc.count b
  | [], [], _ => rfl
  | [], c :: cs, h => by simp at h
  | a :: t, [], h => by simp at h
  | a :: t, c :: cs, h => by
    have ih := maskFilter_beq_length b t cs (by simpa using h)
    by_cases hab : a = b
    · subst hab
      simp [maskFilter_cons, List.count_cons, ih]
    · have : (a == b) = false := by simp [hab]
      simp [maskFilter_cons, List.count_cons, this, ih, hab]

/-- Row count of one label's sub-dataset: the number of occurrences of the
label in the `barcode` column, provided the columns are aligned. -/
theorem selectBarcode_len (d : Dataset) (bc : List String) (b : String)
    (hbc : d.barcode = some bc) (hlen : bc.length = d.lengths.length) :
    (d.selectBarcode b).len = bc.count b := by
  simp only [Dataset.selectBarcode, Dataset.len, hbc, Option.getD_some]
  exact maskFilter_beq_length b bc d.lengths hlen

theorem not_mem_seen_of_mem_uniqueFirstAux :
    ∀ (l seen : List String) (b : String), b ∈ uniqueFirstAux seen l → b ∉ seen := by
  intro l
  induction l with
  | nil => intro seen b h; simp [uniqueFirstAux] at h
  | cons a t ih =>
    intro seen b h
    by_cases ha : a ∈ seen
    · rw [uniqueFirstAux, if_pos ha] at h
      exact ih seen b h
    · rw [uniqueFirstAux, if_neg ha] at h
      rcases List.mem_cons.mp h with rfl | h
      · exact ha
      · intro hb
        exact (ih (a :: seen) b h) (List.mem_cons_of_mem a hb)

theorem countP_cons_seen (a : String) (seen : List String) (ha : a ∉ seen) :
    ∀ t : List String,
      t.countP (fun x => !decide (x ∈ seen)) =
        t.count a + t.countP (fun x => !decide (x ∈ a :: seen)) := by
  intro t
  induction t with
  | nil => rfl
  | cons c u ih =>
    by_cases hc : c = a
    · subst hc
      simp [List.countP_cons, List.count_cons, ha, ih]
      omega
    · by_cases hcs : c ∈ seen
      · simp [List.countP_cons, List.count_cons, hc, hcs, ih]
      · simp [List.countP_cons, List.count_cons, hc, hcs, ih]
        omega

theorem uniqueFirstAux_count_sum :
    ∀ (l seen : List String),
      ((uniqueFirstAux seen l).map (fun b => l.count b)).sum =
        l.countP (fun a => !decide (a ∈ seen)) := by
  intro l
  induction l with
  | nil => intro seen; rfl
  | cons a t ih =>
    intro seen
    by_cases ha : a ∈ seen
    · rw [uniqueFirstAux, if_pos ha]
      have hmap : (uniqueFirstAux seen t).map (fun b => (a :: t).count b) =
          (uniqueFirstAux seen t).map (fun b => t.count b) := by
        apply List.map_congr_left
        intro b hb
        have hbseen := not_mem_seen_of_mem_uniqueFirstAux t seen b hb
        have hba : (a == b) = false := by
          simp only [beq_eq_false_iff_ne, ne_eq]
          rintro rfl
          exact hbseen ha
        simp [List.count_cons, hba]
      rw [hmap, ih seen]
      simp [List.countP_cons, ha]
    · rw [uniqueFirstAux, if_neg ha]
      have hmap : (uniqueFirstAux (a :: seen) t).map (fun b => (a :: t).count b) =
          (uniqueFirstAux (a :: seen) t).map (fun b => t.count b) := by
        apply List.map_congr_left
        intro b hb
        have hbseen := not_mem_seen_of_mem_uniqueFirstAux t (a :: seen) b hb
        have hba : (a == b) = false := by
          simp only [beq_eq_false_iff_ne, ne_eq]
          rintro rfl
          exact hbseen (List.mem_cons_self a seen)
        simp [List.count_cons, hba]
      simp only [List.map_cons, List.sum_cons, hmap, ih (a :: seen)]
      rw [List.countP_cons]
      simp only [ha, decide_False, Bool.not_false, if_true]
      rw [List.count_cons_self, countP_cons_seen a seen ha t]
      omega

/-- The distinct labels' occurrence counts sum to the total row count. -/
theorem uniqueFirst_count_sum (l : List String) :
    ((uniqueFirst l).map (fun b => l.count b)).sum = l.length := by
  rw [uniqueFirst, uniqueFirstAux_count_sum l []]
  simp [List.countP_eq_length]

theorem sum_filter_add_sum_filter_not {α : Type u} (l : List α) (p : α → Bool) (f : α → Nat) :
    ((l.filter p).map f).sum + ((l.filter (fun x => !p x)).map f).sum = (l.map f).sum := by
  induction l with
  | nil => rfl
  | cons a t ih =>
    by_cases h : p a <;> simp [h, List.sum_cons] <;> omega

/-! ## Barcode fan-out -/

theorem labelSettings_labelSettings (args : Args) (s : Settings) (a b : String) :
    labelSettings args (labelSettings args s a) b = labelSettings args s b := rfl

theorem labelSettings_pathOnly (args : Args) (s : Settings) (a b : String) :
    labelSettings args { s with path := labelPath args a } b = labelSettings args s b := rfl

/-- Full characterization of the barcode fan-out loop: the plot calls are
exactly the concatenation, over the labels with more than 5 rows, of that
label's `make_plots` output under its label settings; the effects record the
per-label processing notice plus, for each label with at most 5 rows, the
stderr and log skip notices; plot generation succeeded for every retained
label; and the loop leaves `statsfile`, `filtered`, `barcoded` untouched
while `path` ends up as the last label's path. -/
theorem barcodeLoop_inv (args : Args) (datadf : Dataset) :
    ∀ (labels : List String) (s s' : Settings) (plots : List PlotCall) (effs : List Effect),
      barcodeLoop args datadf labels s = some (s', plots, effs) →
      plots = (labels.filter (fun b => decide (5 < (datadf.selectBarcode b).len))).flatMap
          (fun b => (make_plots (datadf.selectBarcode b) (labelSettings args s b)).getD []) ∧
      effs = labels.flatMap (fun b =>
          Effect.logInfo ("Processing " ++ b) ::
          (if 5 < (datadf.selectBarcode b).len then [] else
            [Effect.stderrOut ("Found barcode " ++ b ++ " less than 5x, ignoring...\n"),
             Effect.logInfo ("Found barcode " ++ b ++ " less than 5 times, ignoring")])) ∧
      (∀ b ∈ labels, 5 < (datadf.selectBarcode b).len →
        (make_plots (datadf.selectBarcode b) (labelSettings args s b)).isSome = true) ∧
      s'.statsfile = s.statsfile ∧ s'.filtered = s.filtered ∧ s'.barcoded = s.barcoded ∧
      s'.path = labels.foldl (fun _ b => labelPath args b) s.path := by
  intro labels
  induction labels with
  | nil =>
    intro s s' plots effs h
    rw [barcodeLoop] at h
    simp only [Option.some.injEq, Prod.mk.injEq] at h
    obtain ⟨rfl, rfl, rfl⟩ := h
    simp
  | cons a t ih =>
    intro s s' plots effs h
    rw [barcodeLoop] at h
    by_cases hlen : 5 < (datadf.selectBarcode a).len
    · rw [if_pos hlen] at h
      cases hmp : make_plots (datadf.selectBarcode a)
          { { s with path := labelPath args a } with title := some a } with
      | none => rw [hmp] at h; exact absurd h (by simp)
      | some ps =>
        rw [hmp] at h
        cases hloop : barcodeLoop args datadf t
            { { s with path := labelPath args a } with title := some a } with
        | none => rw [hloop] at h; exact absurd h (by simp)
        | some r =>
          obtain ⟨s2, ps2, effs2⟩ := r
          rw [hloop] at h
          simp only [Option.some.injEq, Prod.mk.injEq] at h
          obtain ⟨rfl, rfl, rfl⟩ := h
          obtain ⟨hplots, heffs, hsome, hsf, hfl, hbc, hpath⟩ := ih _ _ _ _ hloop
          have hls : ({ { s with path := labelPath args a } with title := some a } : Settings) =
              labelSettings args s a := rfl
          refine ⟨?_, ?_, ?_, hsf, hfl, hbc, ?_⟩
          · rw [List.filter_cons_of_pos (by simpa using hlen), List.flatMap_cons]
            rw [hls] at hmp
            rw [hmp]
            simp only [Option.getD_some]
            rw [hplots]
            rfl
          · rw [List.flatMap_cons, if_pos hlen, heffs]
            rfl
          · intro b hb hblen
            rcases List.mem_cons.mp hb with rfl | hb
            · rw [hls] at hmp; simp [hmp]
            · exact hsome b hb hblen
          · simp only [List.foldl_cons]
            exact hpath
    · rw [if_neg hlen] at h
      cases hloop : barcodeLoop args datadf t { s with path := labelPath args a } with
      | none => rw [hloop] at h; exact absurd h (by simp)
      | some r =>
        obtain ⟨s2, ps2, effs2⟩ := r
        rw [hloop] at h
        simp only [Option.some.injEq, Prod.mk.injEq, exists_eq_left'] at h
        obtain ⟨rfl, rfl, rfl⟩ := h
        obtain ⟨hplots, heffs, hsome, hsf, hfl, hbc, hpath⟩ := ih _ _ _ _ hloop
        refine ⟨?_, ?_, ?_, hsf, hfl, hbc, ?_⟩
        · rw [List.filter_cons_of_neg (by simpa using hlen)]
          exact hplots
        · rw [List.flatMap_cons, if_neg hlen, heffs]
          rfl
        · intro b hb hblen
          rcases List.mem_cons.mp hb with rfl | hb
          · exact absurd hblen hlen
          · exact hsome b hb hblen
        · simp only [List.foldl_cons]
          exact hpath

/-- C2: in barcode mode, for every distinct barcode label the fan-out loop
generates plots for the label exactly when its row count is strictly greater
than 5 (the retained labels' plots are those labels' `make_plots` outputs,
and plot generation succeeded for each of them); every label with at most 5
rows is skipped with a stderr notice plus a log entry rather than an error;
and the retained and skipped labels' row counts together sum to the whole
dataset's row count. -/
theorem barcode_fanout_partition (args : Args) (d : Dataset) (bc : List String)
    (s s' : Settings) (plots : List PlotCall) (effs : List Effect)
    (hbc : d.barcode = some bc) (hlen : bc.length = d.lengths.length)
    (h : barcodeLoop args d (uniqueFirst bc) s = some (s', plots, effs)) :
    plots = ((uniqueFirst bc).filter (fun b => decide (5 < bc.count b))).flatMap
        (fun b => (make_plots (d.selectBarcode b) (labelSettings args s b)).getD []) ∧
    (∀ b ∈ uniqueFirst bc, 5 < bc.count b →
      (make_plots (d.selectBarcode b) (labelSettings args s b)).isSome = true) ∧
    effs = (uniqueFirst bc).flatMap (fun b =>
        Effect.logInfo ("Processing " ++ b) ::
        (if 5 < bc.count b then [] else
          [Effect.stderrOut ("Found barcode " ++ b ++ " less than 5x, ignoring...\n"),
           Effect.logInfo ("Found barcode " ++ b ++ " less than 5 times, ignoring")])) ∧
    (((uniqueFirst bc).filter (fun b => decide (5 < bc.count b))).map
        (fun b => bc.count b)).sum +
      (((uniqueFirst bc).filter (fun b => !decide (5 < bc.count b))).map
        (fun b => bc.count b)).sum = d.len := by
  obtain ⟨hplots, heffs, hsome, _, _, _, _⟩ :=
    barcodeLoop_inv args d (uniqueFirst bc) s s' plots effs h
  have hsel : ∀ b, (d.selectBarcode b).len = bc.count b :=
    fun b => selectBarcode_len d bc b hbc hlen
  refine ⟨?_, ?_, ?_, ?_⟩
  · rw [hplots]
    simp only [hsel]
  · intro b hb hcount
    exact hsome b hb (by rw [hsel]; exact hcount)
  · rw [heffs]
    simp only [hsel]
  · rw [sum_filter_add_sum_filter_not (uniqueFirst bc)
      (fun b => decide (5 < bc.count b)) (fun b => bc.count b)]
    rw [uniqueFirst_count_sum bc]
    rw [Dataset.len, hlen]

/-- Concrete barcoded dataset: label BC01 has six rows, label BC02 three. -/
def dBarc : Dataset :=
  { lengths := [100, 200, 300, 400, 500, 600, 10, 20, 30]
    length_filter := [true, true, true, true, true, true, true, true, true]
    barcode := some ["BC01", "BC01", "BC01", "BC01", "BC01", "BC01", "BC02", "BC02", "BC02"] }

/-- The barcode column of `dBarc`. -/
def bcW : List String :=
  ["BC01", "BC01", "BC01", "BC01", "BC01", "BC01", "BC02", "BC02", "BC02"]

/-- Concrete barcoded arguments used by witnesses and counterexamples. -/
def argsBar : Args :=
  { outdir := "out", pfx := "p", barcoded := true, n50 := false, title := none }

/-- Concrete barcoded settings record used by witnesses. -/
def sBar : Settings :=
  { path := "out/p", title := none, barcoded := true, filtered := false,
    statsfile := ["out/pNanoStats_barcoded.txt"], lengths_pointer := .lengths,
    N50 := false, logBool := false }

/-- The concrete fan-out run used by the C2 witness. -/
def fanW : Settings × List PlotCall × List Effect :=
  (barcodeLoop argsBar dBarc (uniqueFirst bcW) sBar).getD (sBar, [], [])

theorem barcode_fanout_partition_witness :
    fanW.2.1 = ((uniqueFirst bcW).filter (fun b => decide (5 < bcW.count b))).flatMap
        (fun b => (make_plots (dBarc.selectBarcode b) (labelSettings argsBar sBar b)).getD []) ∧
    (make_plots (dBarc.selectBarcode "BC01") (labelSettings argsBar sBar "BC01")).isSome = true ∧
    fanW.2.2 = (uniqueFirst bcW).flatMap (fun b =>
        Effect.logInfo ("Processing " ++ b) ::
        (if 5 < bcW.count b then [] else
          [Effect.stderrOut ("Found barcode " ++ b ++ " less than 5x, ignoring...\n"),
           Effect.logInfo ("Found barcode " ++ b ++ " less than 5 times, ignoring")])) ∧
    (((uniqueFirst bcW).filter (fun b => decide (5 < bcW.count b))).map
        (fun b => bcW.count b)).sum +
      (((uniqueFirst bcW).filter (fun b => !decide (5 < bcW.count b))).map
        (fun b => bcW.count b)).sum = dBarc.len := by
  have h := barcode_fanout_partition argsBar dBarc bcW sBar fanW.1 fanW.2.1 fanW.2.2
    (by decide) (by decide) (by decide)
  exact ⟨h.1, h.2.1 "BC01" (by decide) (by decide), h.2.2.1, h.2.2.2⟩

/-! ## Statistics phase and pipeline characterization -/

/-- The startup output path `path.join(args.outdir, args.prefix)` set at
line 43, before any barcode fan-out rewrites it. -/
def startupPath (args : Args) : String := pathJoin args.outdir args.pfx

theorem make_stats_plain (d : Dataset) (s : Settings) (suffix : String)
    (hb : s.barcoded = false) :
    make_stats d s suffix =
      some ([⟨[d], none, s.path ++ "NanoStats" ++ suffix ++ ".txt"⟩],
        s.path ++ "NanoStats" ++ suffix ++ ".txt") := by
  simp [make_stats, hb]

theorem make_stats_barcoded (d : Dataset) (s : Settings) (suffix : String)
    (bc : List String) (hb : s.barcoded = true) (hbc : d.barcode = some bc) :
    make_stats d s suffix =
      some ([⟨[d], none, s.path ++ "NanoStats" ++ suffix ++ ".txt"⟩,
             ⟨(uniqueFirst bc).map (fun b => d.selectBarcode b), some (uniqueFirst bc),
              s.path ++ "NanoStats_barcoded.txt"⟩],
            s.path ++ "NanoStats_barcoded.txt") := by
  simp [make_stats, hb, hbc]

/-- The `write_stats` calls one `make_stats` invocation issues at the
startup path: the aggregate write plus, in barcode mode, the per-label
breakdown write (over every distinct label, no size exclusion). -/
def stageWrites (args : Args) (d : Dataset) (suffix : String) : List StatsWrite :=
  [⟨[d], none, startupPath args ++ "NanoStats" ++ suffix ++ ".txt"⟩] ++
  (if args.barcoded then
    [⟨(uniqueFirst (d.barcode.getD [])).map (fun b => d.selectBarcode b),
      some (uniqueFirst (d.barcode.getD [])),
      startupPath args ++ "NanoStats_barcoded.txt"⟩]
   else [])

/-- The path one `make_stats` invocation returns: the aggregate file, or in
barcode mode the breakdown file. -/
def stageReturn (args : Args) (suffix : String) : String :=
  if args.barcoded then startupPath args ++ "NanoStats_barcoded.txt"
  else startupPath args ++ "NanoStats" ++ suffix ++ ".txt"

/-- The `settings["statsfile"]` list after the statistics phase. -/
def statsfileSpec (args : Args) (datadf : Dataset) (filt : Dataset → FilterOutcome) :
    List String :=
  [stageReturn args ""] ++
  (if (filt datadf).filtered then [stageReturn args "_post_filtering"] else [])

/-- All `write_stats` calls of the statistics phase. -/
def wsSpec (args : Args) (datadf : Dataset) (filt : Dataset → FilterOutcome) :
    List StatsWrite :=
  stageWrites args datadf "" ++
  (if (filt datadf).filtered then stageWrites args (filt datadf).df "_post_filtering" else [])

/-- The settings record after the statistics phase. -/
def settingsSpec (args : Args) (datadf : Dataset) (filt : Dataset → FilterOutcome) :
    Settings :=
  { path := startupPath args, title := args.title, barcoded := args.barcoded,
    filtered := (filt datadf).filtered,
    statsfile := statsfileSpec args datadf filt,
    lengths_pointer := (filt datadf).lengths_pointer, N50 := args.n50,
    logBool := (filt datadf).logBool }

theorem statsPhase_inv (args : Args) (datadf : Dataset) (filt : Dataset → FilterOutcome)
    (ws : List StatsWrite) (df1 : Dataset) (s3 : Settings)
    (h : statsPhase args datadf filt = some (ws, df1, s3)) :
    df1 = (filt datadf).df ∧ s3 = settingsSpec args datadf filt ∧
      ws = wsSpec args datadf filt := by
  cases hb : args.barcoded with
  | false =>
    cases hf : (filt datadf).filtered with
    | false =>
      simp only [statsPhase, make_stats, initSettings, hb, hf, Bool.false_eq_true, if_false,
        bind, Option.bind_eq_some, Option.some.injEq, Prod.mk.injEq, exists_eq_left'] at h
      obtain ⟨hws, hdf, hs3⟩ := h
      refine ⟨hdf.symm, ?_, ?_⟩
      · rw [← hs3]
        simp [settingsSpec, statsfileSpec, stageReturn, initSettings, startupPath, hb, hf]
      · rw [← hws]
        simp [wsSpec, stageWrites, initSettings, startupPath, hb, hf]
    | true =>
      simp only [statsPhase, make_stats, initSettings, hb, hf, Bool.false_eq_true, if_false,
        if_true, bind, Option.bind_eq_some, Option.some.injEq, Prod.mk.injEq,
        exists_eq_left'] at h
      obtain ⟨hws, hdf, hs3⟩ := h
      refine ⟨hdf.symm, ?_, ?_⟩
      · rw [← hs3]
        simp [settingsSpec, statsfileSpec, stageReturn, initSettings, startupPath, hb, hf]
      · rw [← hws]
        simp [wsSpec, stageWrites, initSettings, startupPath, hb, hf]
  | true =>
    cases hbc : datadf.barcode with
    | none =>
      simp [statsPhase, make_stats, initSettings, hb, hbc, bind, Option.bind_eq_some] at h
    | some bc =>
      cases hf : (filt datadf).filtered with
      | false =>
        simp only [statsPhase, make_stats, initSettings, hb, hbc, hf, Bool.false_eq_true,
          if_false, if_true, bind, Option.bind_eq_some, Option.some.injEq, Prod.mk.injEq,
          exists_eq_left'] at h
        obtain ⟨hws, hdf, hs3⟩ := h
        refine ⟨hdf.symm, ?_, ?_⟩
        · rw [← hs3]
          simp [settingsSpec, statsfileSpec, stageReturn, initSettings, startupPath, hb, hf]
        · rw [← hws]
          simp [wsSpec, stageWrites, initSettings, startupPath, hb, hf, hbc]
      | true =>
        cases hbc1 : (filt datadf).df.barcode with
        | none =>
          simp [statsPhase, make_stats, initSettings, hb, hbc, hbc1, hf, bind,
            Option.bind_eq_some] at h
        | some bc1 =>
          simp only [statsPhase, make_stats, initSettings, hb, hbc, hbc1, hf,
            Bool.false_eq_true, if_false, if_true, bind, Option.bind_eq_some,
            Option.some.injEq, Prod.mk.injEq, exists_eq_left'] at h
          obtain ⟨hws, hdf, hs3⟩ := h
          refine ⟨hdf.symm, ?_, ?_⟩
          · rw [← hs3]
            simp [settingsSpec, statsfileSpec, stageReturn, initSettings, startupPath, hb, hf]
          · rw [← hws]
            simp [wsSpec, stageWrites, initSettings, startupPath, hb, hf, hbc, hbc1]

theorem plotPhase_plain (args : Args) (df1 : Dataset) (s3 : Settings)
    (s4 : Settings) (calls : List PlotCall) (effs : List Effect)
    (hb : args.barcoded = false)
    (h : plotPhase args df1 s3 = some (s4, calls, effs)) :
    s4 = s3 ∧ effs = [] ∧ make_plots df1 s3 = some calls := by
  simp only [plotPhase, hb, Bool.false_eq_true, if_false, bind, Option.bind_eq_some,
    Option.some.injEq, Prod.mk.injEq] at h
  obtain ⟨ps, hps, hs4, hcalls, heffs⟩ := h
  exact ⟨hs4.symm, heffs.symm, by rw [hps, hcalls]⟩

theorem plotPhase_barcoded (args : Args) (df1 : Dataset) (s3 : Settings)
    (s4 : Settings) (calls : List PlotCall) (effs : List Effect)
    (hb : args.barcoded = true)
    (h : plotPhase args df1 s3 = some (s4, calls, effs)) :
    ∃ bc, df1.barcode = some bc ∧
      barcodeLoop args df1 (uniqueFirst bc) s3 = some (s4, calls, effs) := by
  simp only [plotPhase, hb, if_true, bind, Option.bind_eq_some] at h
  obtain ⟨bc, hbc, hloop⟩ := h
  exact ⟨bc, hbc, hloop⟩

theorem pipeline_inv (st : String → String) (en : Plot → String)
    (rd : PlotCall → List Plot) (args : Args) (datadf : Dataset)
    (filt : Dataset → FilterOutcome) (r : RunResult)
    (h : pipeline st en rd args datadf filt = some r) :
    ∃ df1 s3 s4 calls effs,
      statsPhase args datadf filt = some (r.statsWrites, df1, s3) ∧
      plotPhase args df1 s3 = some (s4, calls, effs) ∧
      r.settings = s4 ∧ r.plotCalls = calls ∧ r.effects = effs ∧
      r.plots = calls.flatMap rd ∧
      make_report st en (calls.flatMap rd) s4 = some (r.reportPath, r.reportContent) := by
  simp only [pipeline, bind, Option.bind_eq_some, Option.some.injEq] at h
  obtain ⟨⟨ws, df1, s3⟩, hsp, ⟨s4, calls, effs⟩, hpp, ⟨rp, content⟩, hmr, hr⟩ := h
  subst hr
  exact ⟨df1, s3, s4, calls, effs, hsp, hpp, rfl, rfl, rfl, rfl, hmr⟩

theorem report_html_content_inv (st : String → String) (en : Plot → String)
    (plots : List Plot) (s : Settings) (c : List String)
    (h : report_html_content st en plots s = some c) :
    ∃ stats, statsSections st s = some stats ∧
      c = ["<body>", "<div class=\"panel panelC\">"] ++
          (if s.filtered then
            ["<p><strong><a href=\"#stats0\">Summary Statistics prior to filtering</a></strong></p>",
             "<p><strong><a href=\"#stats1\">Summary Statistics after filtering</a></strong></p>"]
           else
            ["<p><strong><a href=\"#stats0\">Summary Statistics</a></strong></p>"]) ++
          ["<p><strong><a href=\"#plots\">Plots</a></strong></p>"] ++
          plots.map tocEntry ++
          ["</div>", "<div class=\"panel panelM\"> <h1>NanoPlot report</h1>"] ++
          stats ++
          ["<h2 id=\"plots\">Plots</h2>"] ++ plots.flatMap (plotSection en) := by
  simp only [report_html_content, bind, Option.bind_eq_some, Option.some.injEq] at h
  obtain ⟨stats, hs, hc⟩ := h
  exact ⟨stats, hs, hc.symm⟩

theorem make_report_inv (st : String → String) (en : Plot → String)
    (plots : List Plot) (s : Settings) (rp : String) (c : List String)
    (h : make_report st en plots s = some (rp, c)) :
    rp = s.path ++ "NanoPlot-report.html" ∧
      report_html_content st en plots s = some c := by
  simp only [make_report, Option.map_eq_some'] at h
  obtain ⟨c', hc', heq⟩ := h
  obtain ⟨h1, h2⟩ := Prod.mk.injEq .. |>.mp heq
  exact ⟨h1.symm, by rw [hc', h2]⟩

theorem statsSections_false (st : String → String) (s : Settings) (f0 : String)
    (hf : s.filtered = false) (h0 : s.statsfile[0]? = some f0) :
    statsSections st s =
      some ["<h2 id=\"stats0\">Summary statistics</h2>", st f0] := by
  simp [statsSections, hf, h0]

theorem statsSections_true (st : String → String) (s : Settings) (f0 f1 : String)
    (hf : s.filtered = true) (h0 : s.statsfile[0]? = some f0)
    (h1 : s.statsfile[1]? = some f1) :
    statsSections st s =
      some ["<h2 id=\"stats0\">Summary statistics prior to filtering</h2>", st f0,
            "<h2 id=\"stats1\">Summary statistics after filtering</h2>", st f1] := by
  simp [statsSections, hf, h0, h1]

/-- Settings fields surviving the plot phase: the fan-out loop rewrites only
`path` and `title`. -/
theorem plotPhase_preserves (args : Args) (df1 : Dataset) (s3 : Settings)
    (s4 : Settings) (calls : List PlotCall) (effs : List Effect)
    (h : plotPhase args df1 s3 = some (s4, calls, effs)) :
    s4.statsfile = s3.statsfile ∧ s4.filtered = s3.filtered ∧ s4.barcoded = s3.barcoded := by
  cases hb : args.barcoded with
  | false =>
    obtain ⟨h43, -, -⟩ := plotPhase_plain args df1 s3 s4 calls effs hb h
    rw [h43]
    exact ⟨rfl, rfl, rfl⟩
  | true =>
    obtain ⟨bc, hbc, hloop⟩ := plotPhase_barcoded args df1 s3 s4 calls effs hb h
    obtain ⟨-, -, -, hsf, hfl, hbar, -⟩ :=
      barcodeLoop_inv args df1 (uniqueFirst bc) s3 s4 calls effs hloop
    exact ⟨hsf, hfl, hbar⟩

/-- C3: in every run that completes, the pre-filter aggregate statistics
write always happens (on the unfiltered dataset, to `NanoStats.txt`), the
post-filtering aggregate write happens exactly when the filtering stage set
the `filtered` flag (on the filtered dataset, to
`NanoStats_post_filtering.txt`), `settings["statsfile"]` carries two entries
when filtered and exactly one otherwise, and the report's table of contents
opens with the two pre/post anchors when filtered and with the single
"Summary Statistics" anchor otherwise. -/
theorem stats_pre_post_and_toc (st : String → String) (en : Plot → String)
    (rd : PlotCall → List Plot) (args : Args) (datadf : Dataset)
    (filt : Dataset → FilterOutcome) (r : RunResult)
    (h : pipeline st en rd args datadf filt = some r) :
    ((r.statsWrites.filter (fun w => w.names = none)).map (fun w => w.outputfile) =
      [startupPath args ++ "NanoStats" ++ "" ++ ".txt"] ++
      (if (filt datadf).filtered then
        [startupPath args ++ "NanoStats" ++ "_post_filtering" ++ ".txt"] else [])) ∧
    ((r.statsWrites.filter (fun w => w.names = none)).map (fun w => w.datadfs) =
      [[datadf]] ++ (if (filt datadf).filtered then [[(filt datadf).df]] else [])) ∧
    r.settings.statsfile.length = (if (filt datadf).filtered then 2 else 1) ∧
    r.reportContent.take (if (filt datadf).filtered then 4 else 3) =
      ["<body>", "<div class=\"panel panelC\">"] ++
      (if (filt datadf).filtered then
        ["<p><strong><a href=\"#stats0\">Summary Statistics prior to filtering</a></strong></p>",
         "<p><strong><a href=\"#stats1\">Summary Statistics after filtering</a></strong></p>"]
       else
        ["<p><strong><a href=\"#stats0\">Summary Statistics</a></strong></p>"]) := by
  obtain ⟨df1, s3, s4, calls, effs, hsp, hpp, hrs, hrc, hre, hrp, hmr⟩ :=
    pipeline_inv st en rd args datadf filt r h
  obtain ⟨hdf1, hs3, hws⟩ := statsPhase_inv args datadf filt r.statsWrites df1 s3 hsp
  obtain ⟨hsf4, hfl4, hbar4⟩ := plotPhase_preserves args df1 s3 s4 calls effs hpp
  have hfl : s4.filtered = (filt datadf).filtered := by rw [hfl4, hs3]; rfl
  have hsf : s4.statsfile = statsfileSpec args datadf filt := by rw [hsf4, hs3]; rfl
  refine ⟨?_, ?_, ?_, ?_⟩
  · rw [hws]
    cases hb : args.barcoded <;> cases hf : (filt datadf).filtered <;>
      simp [wsSpec, stageWrites, hb, hf]
  · rw [hws]
    cases hb : args.barcoded <;> cases hf : (filt datadf).filtered <;>
      simp [wsSpec, stageWrites, hb, hf]
  · rw [hrs, hsf]
    cases hf : (filt datadf).filtered <;> simp [statsfileSpec, hf]
  · obtain ⟨hrpath, hrcontent⟩ := make_report_inv st en (calls.flatMap rd) s4
      r.reportPath r.reportContent hmr
    obtain ⟨stats, hstats, hc⟩ := report_html_content_inv st en (calls.flatMap rd) s4
      r.reportContent hrcontent
    rw [hc, hfl]
    cases hf : (filt datadf).filtered <;> simp [hf, List.take]

/-- Concrete non-barcoded arguments for witnesses. -/
def argsPlain : Args :=
  { outdir := "out", pfx := "p", barcoded := false, n50 := false, title := none }

/-- Concrete stand-in for `utils.stats2html`. -/
def stW : String → String := fun p => "TABLE[" ++ p ++ "]"

/-- Concrete stand-in for `Plot.encode`. -/
def enW : Plot → String := fun p => "IMG[" ++ p.title ++ "]"

/-- Concrete stand-in for the rendering backend's returned descriptors. -/
def rdW : PlotCall → List Plot := fun _ => [⟨"Read length histogram"⟩]

/-- Filtering outcome that changes nothing. -/
def filtNone : Dataset → FilterOutcome := fun df => ⟨df, false, .lengths, false⟩

/-- Placeholder run result for `Option.getD`. -/
def runDflt : RunResult := ⟨[], sPlain, [], [], [], "", []⟩

/-- The concrete unfiltered non-barcoded run used by the C3 witness. -/
def runC3 : RunResult := (pipeline stW enW rdW argsPlain dPid filtNone).getD runDflt

theorem stats_pre_post_and_toc_witness :
    ((runC3.statsWrites.filter (fun w => w.names = none)).map (fun w => w.outputfile) =
      [startupPath argsPlain ++ "NanoStats" ++ "" ++ ".txt"] ++
      (if (filtNone dPid).filtered then
        [startupPath argsPlain ++ "NanoStats" ++ "_post_filtering" ++ ".txt"] else [])) ∧
    ((runC3.statsWrites.filter (fun w => w.names = none)).map (fun w => w.datadfs) =
      [[dPid]] ++ (if (filtNone dPid).filtered then [[(filtNone dPid).df]] else [])) ∧
    runC3.settings.statsfile.length = (if (filtNone dPid).filtered then 2 else 1) ∧
    runC3.reportContent.take (if (filtNone dPid).filtered then 4 else 3) =
      ["<body>", "<div class=\"panel panelC\">"] ++
      (if (filtNone dPid).filtered then
        ["<p><strong><a href=\"#stats0\">Summary Statistics prior to filtering</a></strong></p>",
         "<p><strong><a href=\"#stats1\">Summary Statistics after filtering</a></strong></p>"]
       else
        ["<p><strong><a href=\"#stats0\">Summary Statistics</a></strong></p>"]) :=
  stats_pre_post_and_toc stW enW rdW argsPlain dPid filtNone runC3 (by decide)

/-- Settings with one statistics file, for concrete report runs. -/
def sRep : Settings :=
  { path := "out/p", title := none, barcoded := false, filtered := false,
    statsfile := ["out/pNanoStats.txt"], lengths_pointer := .lengths,
    N50 := false, logBool := false }

/-- Two distinct plot titles whose sanitized anchors collide. -/
def plotsCollide : List Plot := [⟨"A b"⟩, ⟨"A_b"⟩]

theorem report_anchor_collision_counterexample :
    (report_html_content stW enW plotsCollide sRep).isSome = true ∧
    Plot.mk "A b" ≠ Plot.mk "A_b" ∧
    ¬ (plotsCollide.map (fun p => sanitize p.title)).Nodup := by decide

/-- C4 (amended): the assembled table of contents holds the statistics
anchors (two pre/post links when `filtered`, else the single Summary
Statistics link), then the Plots link, then exactly one link per plot title
in production order; the statistics panel, plots heading and one anchored
section per plot follow in the same order; every toc link and every heading
is anchored by the plot's title with spaces replaced by underscores.  The
assembler does not enforce anchor uniqueness: two plots collide exactly
when their space-to-underscore-sanitized titles coincide. -/
theorem report_toc_structure_amended (st : String → String) (en : Plot → String)
    (plots : List Plot) (s : Settings) (c : List String) (stats : List String)
    (h : report_html_content st en plots s = some c)
    (hs : statsSections st s = some stats) :
    c = ["<body>", "<div class=\"panel panelC\">"] ++
        (if s.filtered then
          ["<p><strong><a href=\"#stats0\">Summary Statistics prior to filtering</a></strong></p>",
           "<p><strong><a href=\"#stats1\">Summary Statistics after filtering</a></strong></p>"]
         else
          ["<p><strong><a href=\"#stats0\">Summary Statistics</a></strong></p>"]) ++
        ["<p><strong><a href=\"#plots\">Plots</a></strong></p>"] ++
        plots.map tocEntry ++
        ["</div>", "<div class=\"panel panelM\"> <h1>NanoPlot report</h1>"] ++
        stats ++
        ["<h2 id=\"plots\">Plots</h2>"] ++ plots.flatMap (plotSection en) ∧
    (∀ p : Plot, tocEntry p =
      "<p style=\"margin-left:20px\"><a href=\"#" ++ sanitize p.title ++ "\">" ++
        p.title ++ "</a></p>") ∧
    (∀ p : Plot, plotSection en p =
      ["\n<h3 id=\"" ++ sanitize p.title ++ "\">" ++ p.title ++ "</h3>\n" ++ en p,
       "\n<br>\n<br>\n<br>\n<br>"]) := by
  obtain ⟨stats', hs', hc⟩ := report_html_content_inv st en plots s c h
  rw [hs] at hs'
  injection hs' with hs'
  subst hs'
  exact ⟨hc, fun p => rfl, fun p => rfl⟩

theorem report_toc_structure_amended_witness :
    (report_html_content stW enW plotsCollide sRep).getD [] =
      ["<body>", "<div class=\"panel panelC\">"] ++
        (if sRep.filtered then
          ["<p><strong><a href=\"#stats0\">Summary Statistics prior to filtering</a></strong></p>",
           "<p><strong><a href=\"#stats1\">Summary Statistics after filtering</a></strong></p>"]
         else
          ["<p><strong><a href=\"#stats0\">Summary Statistics</a></strong></p>"]) ++
        ["<p><strong><a href=\"#plots\">Plots</a></strong></p>"] ++
        plotsCollide.map tocEntry ++
        ["</div>", "<div class=\"panel panelM\"> <h1>NanoPlot report</h1>"] ++
        (statsSections stW sRep).getD [] ++
        ["<h2 id=\"plots\">Plots</h2>"] ++ plotsCollide.flatMap (plotSection enW) ∧
    tocEntry ⟨"A b"⟩ =
      "<p style=\"margin-left:20px\"><a href=\"#" ++ sanitize "A b" ++ "\">" ++
        "A b" ++ "</a></p>" ∧
    plotSection enW ⟨"A b"⟩ =
      ["\n<h3 id=\"" ++ sanitize "A b" ++ "\">" ++ "A b" ++ "</h3>\n" ++ enW ⟨"A b"⟩,
       "\n<br>\n<br>\n<br>\n<br>"] := by
  have h := report_toc_structure_amended stW enW plotsCollide sRep
    ((report_html_content stW enW plotsCollide sRep).getD [])
    ((statsSections stW sRep).getD []) (by decide) (by decide)
  exact ⟨h.1, h.2.1 ⟨"A b"⟩, h.2.2 ⟨"A b"⟩⟩

theorem crash_message_stream_counterexample :
    (driver_catch (Except.error "boom" : Except String Unit)).2.countP
      (fun eff => match eff with | .stderrOut _ => true | _ => false) = 0 ∧
    Effect.stdout "\n\n\nIf you read this then NanoPlot has crashed :-(" ∈
      (driver_catch (Except.error "boom" : Except String Unit)).2 := by decide

/-- C5 (amended): every unhandled exception reaching the driver's boundary
is logged (`logging.error` with the exception), the five fixed apology and
support lines are printed — to the standard output stream, not to standard
error — and the same exception is re-raised so the process terminates with
non-zero status; nothing is written to standard error. -/
theorem crash_handler_logs_prints_reraises {α : Type u} (e : String) :
    (driver_catch (Except.error e : Except String α)).1 = Except.error e ∧
    (driver_catch (Except.error e : Except String α)).2 =
      Effect.logError e :: crashLines.map Effect.stdout ∧
    (driver_catch (Except.error e : Except String α)).2.countP
      (fun eff => match eff with | .stderrOut _ => true | _ => false) = 0 := by
  refine ⟨rfl, rfl, ?_⟩
  simp [driver_catch, crashLines, List.countP_cons]

theorem foldl_replace_last (args : Args) :
    ∀ (labels : List String) (init : String),
      labels.foldl (fun _ b => labelPath args b) init =
        (match labels.getLast? with | none => init | some b => labelPath args b)
  | [], _ => rfl
  | [_], _ => rfl
  | a :: b :: t, init => by
    rw [List.foldl_cons]
    rw [foldl_replace_last args (b :: t) (labelPath args a)]
    have hx : ∃ x, (b :: t).getLast? = some x := by
      cases hgl : (b :: t).getLast? with
      | none => simp at hgl
      | some x => exact ⟨x, rfl⟩
    obtain ⟨x, hx⟩ := hx
    rw [List.getLast?_cons_cons, hx]

/-- The concrete barcoded unfiltered run shared by the C6 statements. -/
def runC6 : RunResult := (pipeline stW enW rdW argsBar dBarc filtNone).getD runDflt

theorem report_path_barcode_leak_counterexample :
    pipeline stW enW rdW argsBar dBarc filtNone = some runC6 ∧
    runC6.reportPath = "out/pBC02_NanoPlot-report.html" ∧
    runC6.reportPath ≠ startupPath argsBar ++ "NanoPlot-report.html" := by decide

/-- C6 (amended): the report is written to `settings["path"] +
"NanoPlot-report.html"` for the `settings["path"]` in force at report time:
the startup outdir/prefix concatenation in non-barcode mode (or when the
barcode column is empty), but in barcode mode with at least one label the
per-label rewrite of `settings["path"]` is never restored, so the report
lands at the last enumerated label's path
(`outdir/prefix<lastLabel>_NanoPlot-report.html`). -/
theorem report_path_after_fanout_amended (st : String → String) (en : Plot → String)
    (rd : PlotCall → List Plot) (args : Args) (datadf : Dataset)
    (filt : Dataset → FilterOutcome) (r : RunResult)
    (h : pipeline st en rd args datadf filt = some r) :
    r.reportPath =
      (match args.barcoded, (filt datadf).df.barcode with
        | true, some bc =>
          (match (uniqueFirst bc).getLast? with
            | none => startupPath args
            | some b => labelPath args b)
        | _, _ => startupPath args) ++ "NanoPlot-report.html" := by
  obtain ⟨df1, s3, s4, calls, effs, hsp, hpp, hrs, hrc, hre, hrp, hmr⟩ :=
    pipeline_inv st en rd args datadf filt r h
  obtain ⟨hdf1, hs3, hws⟩ := statsPhase_inv args datadf filt r.statsWrites df1 s3 hsp
  obtain ⟨hrpath, -⟩ := make_report_inv st en (calls.flatMap rd) s4
    r.reportPath r.reportContent hmr
  have hs3path : s3.path = startupPath args := by rw [hs3]; rfl
  rw [hrpath]
  cases hb : args.barcoded with
  | false =>
    obtain ⟨h43, -, -⟩ := plotPhase_plain args df1 s3 s4 calls effs hb hpp
    rw [h43, hs3path]
  | true =>
    obtain ⟨bc, hbc, hloop⟩ := plotPhase_barcoded args df1 s3 s4 calls effs hb hpp
    obtain ⟨-, -, -, -, -, -, hpath⟩ :=
      barcodeLoop_inv args df1 (uniqueFirst bc) s3 s4 calls effs hloop
    rw [hdf1] at hbc
    rw [hbc, hpath, foldl_replace_last args (uniqueFirst bc) s3.path, hs3path]

theorem report_path_after_fanout_amended_witness :
    runC6.reportPath =
      (match argsBar.barcoded, (filtNone dBarc).df.barcode with
        | true, some bc =>
          (match (uniqueFirst bc).getLast? with
            | none => startupPath argsBar
            | some b => labelPath argsBar b)
        | _, _ => startupPath argsBar) ++ "NanoPlot-report.html" :=
  report_path_after_fanout_amended stW enW rdW argsBar dBarc filtNone runC6 (by decide)

/-- Filtering outcome that reports a change but keeps the dataset. -/
def filtAll : Dataset → FilterOutcome := fun df => ⟨df, true, .lengths, false⟩

/-- The concrete barcoded run whose filtering stage reports a change,
shared by the C7 statements and the C10 witness. -/
def runC7 : RunResult := (pipeline stW enW rdW argsBar dBarc filtAll).getD runDflt

theorem barcoded_stats_per_stage_counterexample :
    pipeline stW enW rdW argsBar dBarc filtAll = some runC7 ∧
    runC7.statsWrites.countP (fun w => w.names.isSome) = 2 ∧
    runC7.statsWrites.countP (fun w => w.names.isSome) ≠ 1 := by decide

/-- C7 (amended): in barcode mode the barcode-breakdown statistics file is
generated once per `make_stats` call — hence once per statistics stage:
twice per run when the filtering stage reported a change, once otherwise,
and never once per retained label — always to the same
`NanoStats_barcoded.txt` path under the startup path (a later generation
overwrites the earlier, so at most one such file exists on disk), and each
generation covers every distinct barcode label of its dataset with no
minimum-size exclusion. -/
theorem barcoded_stats_once_per_call_amended (st : String → String)
    (en : Plot → String) (rd : PlotCall → List Plot) (args : Args)
    (datadf : Dataset) (filt : Dataset → FilterOutcome) (r : RunResult)
    (bc0 : List String) (h : pipeline st en rd args datadf filt = some r)
    (hb : args.barcoded = true) (hbc0 : datadf.barcode = some bc0) :
    r.statsWrites.countP (fun w => w.names.isSome) =
      (if (filt datadf).filtered then 2 else 1) ∧
    (r.statsWrites.filter (fun w => w.names.isSome)).map (fun w => w.outputfile) =
      List.replicate (if (filt datadf).filtered then 2 else 1)
        (startupPath args ++ "NanoStats_barcoded.txt") ∧
    (r.statsWrites.filter (fun w => w.names.isSome)).map (fun w => w.names) =
      [some (uniqueFirst bc0)] ++
      (if (filt datadf).filtered then
        [some (uniqueFirst ((filt datadf).df.barcode.getD []))] else []) := by
  obtain ⟨df1, s3, s4, calls, effs, hsp, hpp, hrs, hrc, hre, hrp, hmr⟩ :=
    pipeline_inv st en rd args datadf filt r h
  obtain ⟨hdf1, hs3, hws⟩ := statsPhase_inv args datadf filt r.statsWrites df1 s3 hsp
  rw [hws]
  cases hf : (filt datadf).filtered <;>
    simp [wsSpec, stageWrites, hb, hf, hbc0, List.countP_cons]

theorem barcoded_stats_once_per_call_amended_witness :
    runC7.statsWrites.countP (fun w => w.names.isSome) =
      (if (filtAll dBarc).filtered then 2 else 1) ∧
    (runC7.statsWrites.filter (fun w => w.names.isSome)).map (fun w => w.outputfile) =
      List.replicate (if (filtAll dBarc).filtered then 2 else 1)
        (startupPath argsBar ++ "NanoStats_barcoded.txt") ∧
    (runC7.statsWrites.filter (fun w => w.names.isSome)).map (fun w => w.names) =
      [some (uniqueFirst bcW)] ++
      (if (filtAll dBarc).filtered then
        [some (uniqueFirst ((filtAll dBarc).df.barcode.getD []))] else []) :=
  barcoded_stats_once_per_call_amended stW enW rdW argsBar dBarc filtAll runC7 bcW
    (by decide) (by decide) (by decide)

/-- C10: in barcode mode `make_stats` returns the barcode-breakdown path
(`path + "NanoStats_barcoded.txt"`) rather than the aggregate file it also
wrote; consequently every path accumulated in `settings["statsfile"]`
during a barcoded run is the breakdown path, and the Summary-statistics
sections of the assembled report render the breakdown table (the
`stats2html` parameter applied to the breakdown path), not the aggregate
pre/post-filter tables. -/
theorem barcoded_statsfile_in_report (st : String → String) (en : Plot → String)
    (rd : PlotCall → List Plot) (args : Args) (datadf : Dataset)
    (filt : Dataset → FilterOutcome) (r : RunResult)
    (dd : Dataset) (ss : Settings) (suffix : String) (bcc : List String)
    (h : pipeline st en rd args datadf filt = some r) (hb : args.barcoded = true)
    (hss : ss.barcoded = true) (hbcc : dd.barcode = some bcc) :
    (make_stats dd ss suffix).map Prod.snd =
      some (ss.path ++ "NanoStats_barcoded.txt") ∧
    r.settings.statsfile = List.replicate (if (filt datadf).filtered then 2 else 1)
      (startupPath args ++ "NanoStats_barcoded.txt") ∧
    statsSections st r.settings = some
      (if (filt datadf).filtered then
        ["<h2 id=\"stats0\">Summary statistics prior to filtering</h2>",
         st (startupPath args ++ "NanoStats_barcoded.txt"),
         "<h2 id=\"stats1\">Summary statistics after filtering</h2>",
         st (startupPath args ++ "NanoStats_barcoded.txt")]
       else
        ["<h2 id=\"stats0\">Summary statistics</h2>",
         st (startupPath args ++ "NanoStats_barcoded.txt")]) ∧
    make_report st en r.plots r.settings = some (r.reportPath, r.reportContent) := by
  obtain ⟨df1, s3, s4, calls, effs, hsp, hpp, hrs, hrc, hre, hrp, hmr⟩ :=
    pipeline_inv st en rd args datadf filt r h
  obtain ⟨hdf1, hs3, hws⟩ := statsPhase_inv args datadf filt r.statsWrites df1 s3 hsp
  obtain ⟨hsf4, hfl4, hbar4⟩ := plotPhase_preserves args df1 s3 s4 calls effs hpp
  have hfl : s4.filtered = (filt datadf).filtered := by rw [hfl4, hs3]; rfl
  have hsf : s4.statsfile = statsfileSpec args datadf filt := by rw [hsf4, hs3]; rfl
  have hsfile : r.settings.statsfile =
      List.replicate (if (filt datadf).filtered then 2 else 1)
        (startupPath args ++ "NanoStats_barcoded.txt") := by
    rw [hrs, hsf]
    cases hf : (filt datadf).filtered <;>
      simp [statsfileSpec, stageReturn, hb, hf, List.replicate]
  refine ⟨?_, hsfile, ?_, ?_⟩
  · rw [make_stats_barcoded dd ss suffix bcc hss hbcc]
    rfl
  · cases hf : (filt datadf).filtered with
    | false =>
      apply statsSections_false
      · rw [hrs, hfl, hf]
      · rw [hsfile, hf]
        rfl
    | true =>
      apply statsSections_true
      · rw [hrs, hfl, hf]
      · rw [hsfile, hf]
        rfl
      · rw [hsfile, hf]
        rfl
  · rw [hrs, hrp]
    exact hmr

theorem barcoded_statsfile_in_report_witness :
    (make_stats dBarc sBar "").map Prod.snd =
      some (sBar.path ++ "NanoStats_barcoded.txt") ∧
    runC7.settings.statsfile = List.replicate (if (filtAll dBarc).filtered then 2 else 1)
      (startupPath argsBar ++ "NanoStats_barcoded.txt") ∧
    statsSections stW runC7.settings = some
      (if (filtAll dBarc).filtered then
        ["<h2 id=\"stats0\">Summary statistics prior to filtering</h2>",
         stW (startupPath argsBar ++ "NanoStats_barcoded.txt"),
         "<h2 id=\"stats1\">Summary statistics after filtering</h2>",
         stW (startupPath argsBar ++ "NanoStats_barcoded.txt")]
       else
        ["<h2 id=\"stats0\">Summary statistics</h2>",
         stW (startupPath argsBar ++ "NanoStats_barcoded.txt")]) ∧
    make_report stW enW runC7.plots runC7.settings =
      some (runC7.reportPath, runC7.reportContent) :=
  barcoded_statsfile_in_report stW enW rdW argsBar dBarc filtAll runC7 dBarc sBar "" bcW
    (by decide) (by decide) (by decide) (by decide)
